import Mathlib

/-!
Shallow embedding of the wishlist backend (`src/server.js`): the wishlist
routes (`/add`, `/`, `/remove`), the origin-validation middleware, the
metafield read/write helpers with their GraphQL-then-REST fallback, and the
product-lookup helper.  The remote Shopify store is modelled as a `World`
(customers keyed by bare id, each carrying a list of metafield records);
injected failures, the JSON codec and the clock live in an `Env`.
The metafield value type `V` is kept abstract, with `parse`/`stringify`
standing for `JSON.parse`/`JSON.stringify`.
-/

namespace WishlistApp

/-- A wishlist entry as stored in the metafield JSON.  Every field is
optional, since parsed JSON objects may lack any field. -/
structure WEntry where
  id : Option String
  handle : Option String
  title : Option String
  addedAt : Option String
  addedFrom : Option String
deriving DecidableEq

/-- A product node returned by the `nodes(ids:)` GraphQL query.  A node that
is `null` or lacks an `id` (non-product node) is modelled as `none` at the
list level; `handle`/`title` may be absent without raising. -/
structure ProductNode where
  id : String
  handle : Option String
  title : Option String
deriving DecidableEq

/-- Result shape of `getProductDetails`. -/
structure ProductDetail where
  id : String
  handle : Option String
  title : Option String
deriving DecidableEq

/-- One metafield record of a customer (REST record id, namespace, key, value). -/
structure Mf (V : Type) where
  recId : Nat
  ns : String
  key : String
  value : V
deriving DecidableEq

/-- The remote store: customers keyed by bare customer id. -/
structure World (V : Type) where
  customers : List (String × List (Mf V))
deriving DecidableEq

/-- Trace of remote interactions, used to state "no remote read/write occurs"
and which channel was invoked with which value. -/
inductive RemoteCall (V : Type) where
  | gqlCustomerQuery (gid : String)
  | gqlMetafieldsSet (ownerId : String) (value : V)
  | gqlNodesQuery (ids : List String)
  | restGetMetafields (cleanId : String)
  | restWrite (cleanId : String) (method : String) (recId : Option Nat) (value : V)
deriving DecidableEq

/-- Outcome of the primary `metafieldsSet` mutation: success, success with
field-level user errors, or a thrown network/API error. -/
inductive GqlWriteOutcome where
  | ok
  | userErrs (msgs : List String)
  | netThrow (msg : String)
deriving DecidableEq

/-- Environment: the JSON codec, injected remote outcomes, and the clock. -/
structure Env (V : Type) where
  parse : V → Option (List WEntry)
  stringify : List WEntry → V
  customerFail : Option String
  gqlWrite : GqlWriteOutcome
  nodesResult : List String → Except String (List (Option ProductNode))
  restGetOk : Bool
  restWriteOk : Bool
  newRecId : Nat
  now : String

/-! ### String helpers (JS `startsWith`, `includes`, first-occurrence `replace`) -/

/-- `leadEq p l` holds when `p` is a leading segment of `l`. -/
def leadEq {α : Type} [DecidableEq α] : List α → List α → Bool
  | [], _ => true
  | _ :: _, [] => false
  | a :: as, b :: bs => decide (a = b) && leadEq as bs

/-- Replace the first occurrence of `pat` by `rep` (JS `String.replace` with a
string pattern replaces only the first occurrence). -/
def listReplaceFirst {α : Type} [DecidableEq α] (pat rep : List α) : List α → List α
  | [] => if pat = [] then rep else []
  | c :: cs =>
    if leadEq pat (c :: cs) then rep ++ List.drop pat.length (c :: cs)
    else c :: listReplaceFirst pat rep cs

/-- Substring test (JS `String.includes`). -/
def listContainsSub {α : Type} [DecidableEq α] (pat : List α) : List α → Bool
  | [] => pat.isEmpty
  | c :: cs => leadEq pat (c :: cs) || listContainsSub pat cs

def strStartsWith (s pat : String) : Bool := leadEq pat.data s.data

def strReplaceFirst (s pat rep : String) : String :=
  String.mk (listReplaceFirst pat.data rep.data s.data)

def strIncludes (s sub : String) : Bool := listContainsSub sub.data s.data

/-! ### Association-list store -/

def assocFind {α : Type} (l : List (String × α)) (k : String) : Option α :=
  (l.find? (fun p => decide (p.1 = k))).map (fun p => p.2)

def assocSet {α : Type} (l : List (String × α)) (k : String) (v : α) : List (String × α) :=
  if l.any (fun p => decide (p.1 = k)) then
    l.map (fun p => if p.1 = k then (k, v) else p)
  else l ++ [(k, v)]

/-! ### Identifier handling from the source -/

/-- `customerId.startsWith('gid://') ? customerId : `gid://shopify/Customer/${customerId}``
(lines 177, 347, 403 of `server.js`). -/
def normCid (cid : String) : String :=
  if strStartsWith cid "gid://" then cid else "gid://shopify/Customer/" ++ cid

/-- `customerId.replace('gid://shopify/Customer/', '')` (line 211). -/
def cleanOf (cid : String) : String := strReplaceFirst cid "gid://shopify/Customer/" ""

/-- The bare key under which the model store files a customer addressed by
`cid` through the GraphQL path. -/
def canonKey (cid : String) : String := cleanOf (normCid cid)

/-- `edge.node.key === 'wishlist_products' && edge.node.namespace === 'custom'` (line 414). -/
def isWishMf {V : Type} (mf : Mf V) : Bool :=
  decide (mf.key = "wishlist_products") && decide (mf.ns = "custom")

def isCustomMf {V : Type} (mf : Mf V) : Bool := decide (mf.ns = "custom")

def custMfs {V : Type} (w : World V) (key : String) : List (Mf V) :=
  (assocFind w.customers key).getD []

/-- Model of the platform resolving a customer gid: strip the customer prefix
and look the bare id up in the store. -/
def worldCustomer {V : Type} (w : World V) (gid : String) : Option (List (Mf V)) :=
  assocFind w.customers (strReplaceFirst gid "gid://shopify/Customer/" "")

/-- Model of the platform applying a metafield write for
(namespace `custom`, key `wishlist_products`): update the existing record in
place (keeping its record id), else append a fresh record. -/
def setMf {V : Type} (mfs : List (Mf V)) (rid : Nat) (v : V) : List (Mf V) :=
  if mfs.any isWishMf then
    mfs.map (fun mf => if isWishMf mf then ⟨mf.recId, mf.ns, mf.key, v⟩ else mf)
  else mfs ++ [⟨rid, "custom", "wishlist_products", v⟩]

def worldSetWish {V : Type} (w : World V) (key : String) (rid : Nat) (v : V) : World V :=
  ⟨assocSet w.customers key (setMf (custMfs w key) rid v)⟩

/-! ### `getCustomerMetafield` (lines 378-436) -/

/-- Embedding of `getCustomerMetafield`: normalize the id, query the customer
with its first 10 `custom`-namespace metafields, find the wishlist metafield
and parse it.  A missing customer throws `Customer not found: ...`, which the
function's own catch converts to `[]`; a parse failure yields `[]`; any other
thrown error is rethrown. -/
def getCustomerMetafield {V : Type} (env : Env V) (w : World V) (customerId : String) :
    Except String (List WEntry) × List (RemoteCall V) :=
  let gid := normCid customerId
  let tr := [RemoteCall.gqlCustomerQuery gid]
  match env.customerFail with
  | some msg =>
    if strIncludes msg "Customer not found" then (Except.ok [], tr) else (Except.error msg, tr)
  | none =>
    match worldCustomer w gid with
    | none => (Except.ok [], tr)
    | some mfs =>
      match ((mfs.filter isCustomMf).take 10).find? isWishMf with
      | none => (Except.ok [], tr)
      | some mf =>
        match env.parse mf.value with
        | some l => (Except.ok l, tr)
        | none => (Except.ok [], tr)

/-! ### REST fallback (lines 206-272) -/

/-- The metafield record id found by the REST `GET .../metafields.json` step:
present only when the GET succeeds and a record with namespace `custom` and
key `wishlist_products` exists (lines 224-231). -/
def restFoundWishId {V : Type} (env : Env V) (w : World V) (cleanId : String) : Option Nat :=
  if env.restGetOk && (assocFind w.customers cleanId).isSome then
    ((custMfs w cleanId).find?
      (fun mf => decide (mf.ns = "custom") && decide (mf.key = "wishlist_products"))).map
      (fun mf => mf.recId)
  else none

/-- Embedding of `updateCustomerMetafieldREST`: strip the customer prefix,
read existing metafields, `PUT` against the found record id or `POST` a new
record, with `JSON.stringify(wishlistProducts)` as the value; throw on a
non-ok write response. -/
def updateCustomerMetafieldREST {V : Type} (env : Env V) (w : World V) (customerId : String)
    (wishlistProducts : List WEntry) : Except String (World V) × List (RemoteCall V) :=
  let cleanCustomerId := cleanOf customerId
  let metafieldId := restFoundWishId env w cleanCustomerId
  let method := if metafieldId.isSome then "PUT" else "POST"
  let v := env.stringify wishlistProducts
  let tr := [RemoteCall.restGetMetafields cleanCustomerId,
             RemoteCall.restWrite cleanCustomerId method metafieldId v]
  if env.restWriteOk then
    (Except.ok (worldSetWish w cleanCustomerId (metafieldId.getD env.newRecId) v), tr)
  else
    (Except.error "REST API Error", tr)

/-! ### `updateCustomerMetafield` (lines 323-373) -/

/-- Embedding of `updateCustomerMetafield`: issue the primary mutation; on
user errors call the REST fallback inside the `try` (so a REST failure there
is caught and the fallback runs a second time); on a thrown error call the
REST fallback from the `catch` and let its failure propagate. -/
def updateCustomerMetafield {V : Type} (env : Env V) (w : World V) (customerId : String)
    (wishlistProducts : List WEntry) : Except String (World V) × List (RemoteCall V) :=
  let ownerId := normCid customerId
  let v := env.stringify wishlistProducts
  let tr := [RemoteCall.gqlMetafieldsSet ownerId v]
  match env.gqlWrite with
  | GqlWriteOutcome.ok => (Except.ok (worldSetWish w (cleanOf ownerId) env.newRecId v), tr)
  | GqlWriteOutcome.userErrs _ =>
    match updateCustomerMetafieldREST env w customerId wishlistProducts with
    | (Except.ok w', tr') => (Except.ok w', tr ++ tr')
    | (Except.error _, tr') =>
      match updateCustomerMetafieldREST env w customerId wishlistProducts with
      | (Except.ok w', tr2) => (Except.ok w', tr ++ tr' ++ tr2)
      | (Except.error e2, tr2) => (Except.error e2, tr ++ tr' ++ tr2)
  | GqlWriteOutcome.netThrow _ =>
    match updateCustomerMetafieldREST env w customerId wishlistProducts with
    | (Except.ok w', tr') => (Except.ok w', tr ++ tr')
    | (Except.error e, tr') => (Except.error e, tr ++ tr')

/-! ### `getProductDetails` (lines 278-317) -/

/-- The degraded result produced by the catch block (lines 311-315). -/
def degradedDetails (productIds : List String) : List ProductDetail :=
  productIds.map (fun id => ⟨id, none, some ("Product " ++ id)⟩)

/-- JS `result.nodes.map(product => product.id...)`: throws on the first
`null`/id-less node, modelled as `none` for the whole mapping. -/
def allSome {α : Type} : List (Option α) → Option (List α)
  | [] => some []
  | none :: _ => none
  | some a :: xs => (allSome xs).map (fun l => a :: l)

/-- Embedding of `getProductDetails`: empty input short-circuits; ids are
unconditionally qualified with `gid://shopify/Product/`; a thrown query error
or a throwing node mapping is caught and degrades every entry. -/
def getProductDetails {V : Type} (env : Env V) (productIds : List String) :
    List ProductDetail × List (RemoteCall V) :=
  if productIds.isEmpty then ([], [])
  else
    let qids := productIds.map (fun id => "gid://shopify/Product/" ++ id)
    let tr := [RemoteCall.gqlNodesQuery qids]
    match env.nodesResult qids with
    | Except.error _ => (degradedDetails productIds, tr)
    | Except.ok nodes =>
      match allSome nodes with
      | none => (degradedDetails productIds, tr)
      | some products =>
        (products.map (fun p =>
          ⟨strReplaceFirst p.id "gid://shopify/Product/" "", p.handle, p.title⟩), tr)

/-- `{...productDetails[0], addedAt: ..., addedFrom: 'shopify-store'}`
(lines 478-482); spreading `undefined` contributes no fields. -/
def mkNewProduct (d : Option ProductDetail) (now : String) : WEntry :=
  match d with
  | some pd => ⟨some pd.id, pd.handle, pd.title, some now, some "shopify-store"⟩
  | none => ⟨none, none, none, some now, some "shopify-store"⟩

/-! ### Request gate (lines 88-116) and route handlers -/

structure Req where
  origin : Option String
  referer : Option String
  host : Option String
  customerId : Option String
  productId : Option String
deriving DecidableEq

structure GateEnv where
  isDevelopment : Bool
  developmentUrl : String
  shopifyStoreUrl : String
deriving DecidableEq

/-- JS `a || b` on strings: first truthy (non-empty) value. -/
def firstTruthy (a b : Option String) : Option String :=
  match a with
  | some s => if s = "" then b else some s
  | none => b

/-- Embedding of `validateStoreRequest`: in development mode the host must
contain the configured development URL; otherwise the origin (or referer)
must start with the configured store URL. -/
def validateStoreRequest (gate : GateEnv) (req : Req) : Bool :=
  let origin := firstTruthy req.origin req.referer
  if gate.isDevelopment then
    match req.host with
    | none => false
    | some h => if h = "" then false else strIncludes h gate.developmentUrl
  else
    match origin with
    | none => false
    | some o => if o = "" then false else strStartsWith o gate.shopifyStoreUrl

/-- JS falsiness of a request field: absent or the empty string. -/
def isFalsy (s : Option String) : Bool :=
  match s with
  | none => true
  | some v => decide (v = "")

/-- Response: HTTP status, resulting store, remote-call trace, and the
payload fields the claims talk about. -/
structure Resp (V : Type) where
  status : Nat
  world : World V
  trace : List (RemoteCall V)
  product : Option WEntry
  count : Option Nat
  wishlist : Option (List WEntry)
deriving DecidableEq

def isWriteCall {V : Type} : RemoteCall V → Bool
  | RemoteCall.gqlMetafieldsSet _ _ => true
  | RemoteCall.restWrite _ _ _ _ => true
  | _ => false

/-- Embedding of `router.post('/add')` (lines 442-507). -/
def addHandler {V : Type} (env : Env V) (w : World V) (validated : Bool)
    (customerId productId : Option String) : Resp V :=
  if !validated then ⟨403, w, [], none, none, none⟩
  else if isFalsy customerId || isFalsy productId then ⟨400, w, [], none, none, none⟩
  else
    let cid := customerId.getD ""
    let pid := productId.getD ""
    match getCustomerMetafield env w cid with
    | (Except.error _, tr) => ⟨500, w, tr, none, none, none⟩
    | (Except.ok currentWishlist, tr) =>
      if (currentWishlist.find? (fun p => decide (p.id = some pid))).isSome then
        ⟨409, w, tr, none, none, none⟩
      else
        let pd := getProductDetails env [pid]
        let newProduct := mkNewProduct pd.1.head? env.now
        let newWishlist := currentWishlist ++ [newProduct]
        match updateCustomerMetafield env w cid newWishlist with
        | (Except.ok w', tr') =>
          ⟨201, w', tr ++ pd.2 ++ tr', some newProduct, some newWishlist.length, none⟩
        | (Except.error _, tr') => ⟨500, w, tr ++ pd.2 ++ tr', none, none, none⟩

/-- Embedding of `router.get('/')` (lines 513-555). -/
def getHandler {V : Type} (env : Env V) (w : World V) (validated : Bool)
    (customerId : Option String) : Resp V :=
  if !validated then ⟨403, w, [], none, none, none⟩
  else if isFalsy customerId then ⟨400, w, [], none, none, none⟩
  else
    match getCustomerMetafield env w (customerId.getD "") with
    | (Except.error _, tr) => ⟨500, w, tr, none, none, none⟩
    | (Except.ok wishlist, tr) => ⟨200, w, tr, none, some wishlist.length, some wishlist⟩

/-- Embedding of `router.delete('/remove')` (lines 561-607); note the source
has no inner `storeValidation` re-check on this route. -/
def removeHandler {V : Type} (env : Env V) (w : World V)
    (customerId productId : Option String) : Resp V :=
  if isFalsy customerId || isFalsy productId then ⟨400, w, [], none, none, none⟩
  else
    let cid := customerId.getD ""
    let pid := productId.getD ""
    match getCustomerMetafield env w cid with
    | (Except.error _, tr) => ⟨500, w, tr, none, none, none⟩
    | (Except.ok currentWishlist, tr) =>
      let filtered := currentWishlist.filter (fun p => !(decide (p.id = some pid)))
      if filtered.length = currentWishlist.length then ⟨404, w, tr, none, none, none⟩
      else
        match updateCustomerMetafield env w cid filtered with
        | (Except.ok w', tr') => ⟨200, w', tr ++ tr', none, some filtered.length, none⟩
        | (Except.error _, tr') => ⟨500, w, tr ++ tr', none, none, none⟩

inductive Route where
  | add | get | remove
deriving DecidableEq

/-- The router: `router.use(validateStoreRequest)` runs before every wishlist
handler; an unauthorized request is answered 403 with no handler invoked. -/
def handleRequest {V : Type} (gate : GateEnv) (env : Env V) (w : World V) (r : Route)
    (req : Req) : Resp V :=
  if validateStoreRequest gate req then
    match r with
    | Route.add => addHandler env w true req.customerId req.productId
    | Route.get => getHandler env w true req.customerId
    | Route.remove => removeHandler env w req.customerId req.productId
  else ⟨403, w, [], none, none, none⟩

/-! ### Stored-state views used by the claims -/

/-- The raw stored wishlist metafield value of the customer addressed by `cid`. -/
def storedVal {V : Type} (w : World V) (key : String) : Option V :=
  ((custMfs w key).find? isWishMf).map (fun mf => mf.value)

/-- The stored wishlist collection of the customer addressed by `cid`
(absent or unparseable value reads as empty). -/
def storedWishlist {V : Type} (env : Env V) (w : World V) (cid : String) : List WEntry :=
  match storedVal w (canonKey cid) with
  | none => []
  | some v => (env.parse v).getD []

/-- The `id` field of the entry `add` would append for `pid`. -/
def addedEntryId {V : Type} (env : Env V) (pid : String) : Option String :=
  (mkNewProduct (getProductDetails env [pid]).1.head? env.now).id

/-- Number of `custom`-namespace metafields of the customer addressed by `key`. -/
def custCustomCount {V : Type} (w : World V) (key : String) : Nat :=
  ((custMfs w key).filter isCustomMf).length

/-! ### Concrete fixtures for evaluating the model on closed inputs -/

/-- Concrete metafield value type: the serialized blob is kept as the parsed
payload itself (`stringify := some`, `parse := id`), with `none` standing for
an unparseable stored value. -/
def VA : Type := Option (List WEntry)

instance : DecidableEq VA := by
  rw [VA]
  infer_instance

def entryA : WEntry :=
  ⟨some "123", some "tee", some "Tee", some "2026-01-01T00:00:00Z", some "shopify-store"⟩

/-- Store holding customer `1` whose wishlist contains product `123`. -/
def wA : World VA := ⟨[("1", [⟨5, "custom", "wishlist_products", some [entryA]⟩])]⟩

/-- Store holding customer `1` with an empty wishlist metafield. -/
def wEmpty : World VA := ⟨[("1", [⟨5, "custom", "wishlist_products", some []⟩])]⟩

/-- Store holding customer `1` whose wishlist metafield value does not parse. -/
def wBadVal : World VA := ⟨[("1", [⟨5, "custom", "wishlist_products", (none : VA)⟩])]⟩

/-- Empty store: no customers. -/
def wNone : World VA := ⟨[]⟩

/-- Happy-path environment: reads succeed, the primary write succeeds, the
product lookup query fails (degraded entries). -/
def cenvA : Env VA :=
  ⟨fun v => v, some, none, GqlWriteOutcome.ok, fun _ => Except.error "api down", true, true, 9,
   "2026-02-02T00:00:00Z"⟩

/-- Environment whose primary write returns user errors and whose REST write
also fails. -/
def cenvB : Env VA :=
  ⟨fun v => v, some, none, GqlWriteOutcome.userErrs ["boom"],
   fun _ => Except.error "api down", true, false, 9, "2026-02-02T00:00:00Z"⟩

/-- Environment whose product lookup succeeds and echoes the queried ids. -/
def cenvC : Env VA :=
  ⟨fun v => v, some, none, GqlWriteOutcome.ok,
   fun ids => Except.ok (ids.map (fun i => some ⟨i, some "handle", some "Title"⟩)), true, true, 9,
   "2026-02-02T00:00:00Z"⟩

/-- Environment whose product lookup succeeds but returns a null node. -/
def cenvD : Env VA :=
  ⟨fun v => v, some, none, GqlWriteOutcome.ok, fun _ => Except.ok [none], true, true, 9,
   "2026-02-02T00:00:00Z"⟩

def gateA : GateEnv := ⟨false, "localhost", "https://shop.example"⟩

/-- Authorized request for customer `1`, product `123`. -/
def reqA : Req := ⟨some "https://shop.example/products/tee", none, none, some "1", some "123"⟩

/-- Authorized request for customer `1`, product `7`. -/
def reqB : Req := ⟨some "https://shop.example/products/tee", none, none, some "1", some "7"⟩

/-- Unauthorized request that is also missing every required field. -/
def reqBad : Req := ⟨none, none, none, none, none⟩

/-- Authorized request addressing customer `1` by qualified product id. -/
def reqQualified : Req :=
  ⟨some "https://shop.example/products/tee", none, none, some "1",
   some "gid://shopify/Product/123"⟩

/-! ### Helper lemmas -/

theorem leadEq_append_self {α : Type} [DecidableEq α] (l t : List α) :
    leadEq l (l ++ t) = true := by
  induction l with
  | nil => rfl
  | cons a as ih => simp [leadEq, ih]

theorem listReplaceFirst_append_self {α : Type} [DecidableEq α] (pat rep l : List α) :
    listReplaceFirst pat rep (pat ++ l) = rep ++ l := by
  match pat, l with
  | [], [] => simp [listReplaceFirst]
  | [], c :: cs => simp [listReplaceFirst, leadEq]
  | a :: as, l =>
    show listReplaceFirst (a :: as) rep (a :: (as ++ l)) = rep ++ l
    rw [listReplaceFirst]
    have h : leadEq (a :: as) (a :: (as ++ l)) = true := leadEq_append_self (a :: as) l
    rw [h]
    simp [List.drop_left]

theorem listReplaceFirst_not_contained {α : Type} [DecidableEq α] (pat rep : List α) :
    ∀ l, listContainsSub pat l = false → listReplaceFirst pat rep l = l := by
  intro l
  induction l with
  | nil =>
    intro h
    simp [listContainsSub, List.isEmpty_iff] at h
    simp [listReplaceFirst, h]
  | cons c cs ih =>
    intro h
    simp only [listContainsSub, Bool.or_eq_false_iff] at h
    rw [listReplaceFirst, h.1, if_neg (by simp), ih h.2]

theorem strReplaceFirst_append_self (pat rep l : String) :
    strReplaceFirst (pat ++ l) pat rep = rep ++ l := by
  show String.mk (listReplaceFirst pat.data rep.data (pat.data ++ l.data)) = rep ++ l
  rw [listReplaceFirst_append_self]
  rfl

theorem strReplaceFirst_not_contained (s pat rep : String) (h : strIncludes s pat = false) :
    strReplaceFirst s pat rep = s := by
  show String.mk (listReplaceFirst pat.data rep.data s.data) = s
  rw [listReplaceFirst_not_contained pat.data rep.data s.data h]

theorem assocFind_map_set {α : Type} (l : List (String × α)) (k : String) (v : α)
    (h : l.any (fun p => decide (p.1 = k)) = true) :
    assocFind (l.map (fun p => if p.1 = k then (k, v) else p)) k = some v := by
  induction l with
  | nil => simp at h
  | cons a as ih =>
    by_cases hk : a.1 = k
    · simp [assocFind, List.find?, hk]
    · have h' : as.any (fun p => decide (p.1 = k)) = true := by
        simp only [List.any_cons, Bool.or_eq_true] at h
        rcases h with h | h
        · exact absurd (of_decide_eq_true h) hk
        · exact h
      simpa [assocFind, List.find?, hk] using ih h'

theorem assocFind_append_single {α : Type} (l : List (String × α)) (k : String) (v : α)
    (h : l.any (fun p => decide (p.1 = k)) = false) :
    assocFind (l ++ [(k, v)]) k = some v := by
  induction l with
  | nil => simp [assocFind, List.find?]
  | cons a as ih =>
    simp only [List.any_cons, Bool.or_eq_false_iff] at h
    have hk : ¬ a.1 = k := by
      intro hc
      simp [hc] at h
    simpa [assocFind, List.find?, hk] using ih h.2

theorem assocFind_assocSet_self {α : Type} (l : List (String × α)) (k : String) (v : α) :
    assocFind (assocSet l k v) k = some v := by
  rw [assocSet]
  cases hany : l.any (fun p => decide (p.1 = k)) with
  | true => rw [if_pos rfl]; exact assocFind_map_set l k v hany
  | false =>
    rw [if_neg (by simp [hany])]
    exact assocFind_append_single l k v hany

theorem custMfs_worldSetWish_self {V : Type} (w : World V) (key : String) (rid : Nat) (v : V) :
    custMfs (worldSetWish w key rid v) key = setMf (custMfs w key) rid v := by
  simp [custMfs, worldSetWish, assocFind_assocSet_self]

/-- The replacement in `setMf` preserves the wish namespace/key test. -/
theorem isWishMf_setRepl {V : Type} (v : V) (mf : Mf V) :
    isWishMf (if isWishMf mf then (⟨mf.recId, mf.ns, mf.key, v⟩ : Mf V) else mf) = isWishMf mf := by
  by_cases h : isWishMf mf = true
  · have h2 : isWishMf (⟨mf.recId, mf.ns, mf.key, v⟩ : Mf V) = true := by
      simp only [isWishMf] at h ⊢
      exact h
    rw [if_pos h, h2, h]
  · simp [h]

/-- The replacement in `setMf` preserves the namespace test. -/
theorem isCustomMf_setRepl {V : Type} (v : V) (mf : Mf V) :
    isCustomMf (if isWishMf mf then (⟨mf.recId, mf.ns, mf.key, v⟩ : Mf V) else mf) =
      isCustomMf mf := by
  by_cases h : isWishMf mf = true
  · simp [h, isCustomMf]
  · simp [h]

theorem find?_map_repl {V : Type} (v : V) (mfs : List (Mf V)) (hany : mfs.any isWishMf = true) :
    ∃ mf, (mfs.map (fun m => if isWishMf m then (⟨m.recId, m.ns, m.key, v⟩ : Mf V) else m)).find?
        isWishMf = some mf ∧ mf.value = v := by
  induction mfs with
  | nil => simp at hany
  | cons m ms ih =>
    by_cases hm : isWishMf m = true
    · refine ⟨⟨m.recId, m.ns, m.key, v⟩, ?_, rfl⟩
      have h2 : isWishMf (⟨m.recId, m.ns, m.key, v⟩ : Mf V) = true := by
        simp only [isWishMf] at hm ⊢
        exact hm
      simp [List.find?, hm, h2]
    · have hmf : (if isWishMf m then (⟨m.recId, m.ns, m.key, v⟩ : Mf V) else m) = m := by
        simp [hm]
      have h' : ms.any isWishMf = true := by
        simp only [List.any_cons, Bool.or_eq_true] at hany
        rcases hany with h | h
        · exact absurd h hm
        · exact h
      obtain ⟨mf, hfind, hval⟩ := ih h'
      refine ⟨mf, ?_, hval⟩
      rw [List.map_cons, hmf, List.find?_cons_of_neg _ (by simp [hm])]
      exact hfind

theorem find?_append_wish {V : Type} (rid : Nat) (v : V) (mfs : List (Mf V))
    (hall : ∀ m ∈ mfs, isWishMf m = false) :
    (mfs ++ [(⟨rid, "custom", "wishlist_products", v⟩ : Mf V)]).find? isWishMf =
      some ⟨rid, "custom", "wishlist_products", v⟩ := by
  induction mfs with
  | nil => simp [List.find?, isWishMf]
  | cons m ms ih =>
    have hm := hall m (by simp)
    simp only [List.cons_append, List.find?, hm]
    exact ih (fun x hx => hall x (by simp [hx]))

theorem find?_setMf {V : Type} (mfs : List (Mf V)) (rid : Nat) (v : V) :
    ∃ mf, (setMf mfs rid v).find? isWishMf = some mf ∧ mf.value = v := by
  rw [setMf]
  cases hany : mfs.any isWishMf with
  | true =>
    rw [if_pos rfl]
    exact find?_map_repl v mfs hany
  | false =>
    rw [if_neg (by simp)]
    have hall : ∀ m ∈ mfs, isWishMf m = false := by
      intro m hm
      simpa using List.any_eq_false.mp hany m hm
    exact ⟨⟨rid, "custom", "wishlist_products", v⟩, find?_append_wish rid v mfs hall, rfl⟩

theorem isCustomMf_of_isWishMf {V : Type} (mf : Mf V) (h : isWishMf mf = true) :
    isCustomMf mf = true := by
  simp only [isWishMf, Bool.and_eq_true] at h
  simpa [isCustomMf] using h.2

theorem find?_filter_of_imp {α : Type} (p q : α → Bool) (h : ∀ x, p x = true → q x = true) :
    ∀ l : List α, (l.filter q).find? p = l.find? p := by
  intro l
  induction l with
  | nil => rfl
  | cons a as ih =>
    by_cases hq : q a = true
    · rw [List.filter_cons_of_pos hq]
      by_cases hp : p a = true
      · rw [List.find?_cons_of_pos _ hp, List.find?_cons_of_pos _ hp]
      · rw [List.find?_cons_of_neg _ hp, List.find?_cons_of_neg _ hp]
        exact ih
    · have hp : ¬ p a = true := fun hc => hq (h a hc)
      rw [List.filter_cons_of_neg hq, List.find?_cons_of_neg _ hp]
      exact ih

theorem find?_filter_take {V : Type} (mfs : List (Mf V))
    (hlen : (mfs.filter isCustomMf).length ≤ 10) :
    ((mfs.filter isCustomMf).take 10).find? isWishMf = mfs.find? isWishMf := by
  rw [List.take_of_length_le hlen]
  exact find?_filter_of_imp isWishMf isCustomMf isCustomMf_of_isWishMf mfs

theorem storedVal_worldSetWish_self {V : Type} (w : World V) (key : String) (rid : Nat) (v : V) :
    storedVal (worldSetWish w key rid v) key = some v := by
  obtain ⟨mf, hfind, hval⟩ := find?_setMf (custMfs w key) rid v
  rw [storedVal, custMfs_worldSetWish_self, hfind]
  simp [hval]

theorem custCustomCount_setMf {V : Type} (mfs : List (Mf V)) (rid : Nat) (v : V) :
    ((setMf mfs rid v).filter isCustomMf).length ≤ (mfs.filter isCustomMf).length + 1 := by
  rw [setMf]
  cases hany : mfs.any isWishMf with
  | true =>
    rw [if_pos rfl, List.filter_map]
    have hc : mfs.filter
        (isCustomMf ∘ fun m => if isWishMf m then (⟨m.recId, m.ns, m.key, v⟩ : Mf V) else m) =
        mfs.filter isCustomMf :=
      List.filter_congr (fun m _ => isCustomMf_setRepl v m)
    rw [hc, List.length_map]
    exact Nat.le_succ _
  | false =>
    rw [if_neg (by simp), List.filter_append, List.length_append]
    have : (([(⟨rid, "custom", "wishlist_products", v⟩ : Mf V)]).filter isCustomMf).length ≤ 1 := by
      simp [List.filter, isCustomMf]
    omega

theorem custCustomCount_worldSetWish {V : Type} (w : World V) (key : String) (rid : Nat) (v : V) :
    custCustomCount (worldSetWish w key rid v) key ≤ custCustomCount w key + 1 := by
  rw [custCustomCount, custCustomCount, custMfs_worldSetWish_self]
  exact custCustomCount_setMf (custMfs w key) rid v

/-- The read helper's trace is always exactly the one customer query. -/
theorem getCustomerMetafield_trace {V : Type} (env : Env V) (w : World V) (cid : String) :
    (getCustomerMetafield env w cid).2 = [RemoteCall.gqlCustomerQuery (normCid cid)] := by
  rw [getCustomerMetafield]
  cases env.customerFail with
  | some msg =>
    by_cases h : strIncludes msg "Customer not found" = true <;> simp [h]
  | none =>
    cases worldCustomer w (normCid cid) with
    | none => rfl
    | some mfs =>
      cases hf : ((mfs.filter isCustomMf).take 10).find? isWishMf with
      | none => simp [hf]
      | some mf =>
        cases hp : env.parse mf.value with
        | none => simp [hf, hp]
        | some l => simp [hf, hp]

/-- With no injected read failure and at most 10 `custom` metafields on the
customer, the read helper returns exactly the stored wishlist. -/
theorem read_eq_stored {V : Type} (env : Env V) (w : World V) (cid : String)
    (hfail : env.customerFail = none) (hcount : custCustomCount w (canonKey cid) ≤ 10) :
    getCustomerMetafield env w cid =
      (Except.ok (storedWishlist env w cid), [RemoteCall.gqlCustomerQuery (normCid cid)]) := by
  rw [getCustomerMetafield]
  have hwc : worldCustomer w (normCid cid) = assocFind w.customers (canonKey cid) := rfl
  cases hw : assocFind w.customers (canonKey cid) with
  | none =>
    have h1 : custMfs w (canonKey cid) = [] := by simp [custMfs, hw]
    simp only [hfail, hwc, hw]
    simp [storedWishlist, storedVal, h1, List.find?]
  | some mfs =>
    have h1 : custMfs w (canonKey cid) = mfs := by simp [custMfs, hw]
    have hcount' : (mfs.filter isCustomMf).length ≤ 10 := by
      rw [custCustomCount, h1] at hcount
      exact hcount
    simp only [hfail, hwc, hw]
    rw [find?_filter_take mfs hcount']
    cases hf : mfs.find? isWishMf with
    | none => simp [storedWishlist, storedVal, h1, hf]
    | some mf =>
      cases hp : env.parse mf.value with
      | none => simp [storedWishlist, storedVal, h1, hf, hp]
      | some l => simp [storedWishlist, storedVal, h1, hf, hp]

/-- Stored wishlist after a successful primary write. -/
theorem stored_after_set {V : Type} (env : Env V) (w : World V) (cid : String) (rid : Nat) (v : V) :
    storedWishlist env (worldSetWish w (canonKey cid) rid v) cid = (env.parse v).getD [] := by
  rw [storedWishlist, storedVal_worldSetWish_self]

/-- Equation for `updateCustomerMetafield` when the primary mutation succeeds. -/
theorem updateCustomerMetafield_ok {V : Type} (env : Env V) (w : World V) (cid : String)
    (wl : List WEntry) (h : env.gqlWrite = GqlWriteOutcome.ok) :
    updateCustomerMetafield env w cid wl =
      (Except.ok (worldSetWish w (canonKey cid) env.newRecId (env.stringify wl)),
       [RemoteCall.gqlMetafieldsSet (normCid cid) (env.stringify wl)]) := by
  rw [updateCustomerMetafield, h]
  rfl

/-- The read helper depends on the customer id only through its normalization. -/
theorem getCustomerMetafield_congr {V : Type} (env : Env V) (w : World V) (c1 c2 : String)
    (h : normCid c1 = normCid c2) :
    getCustomerMetafield env w c1 = getCustomerMetafield env w c2 := by
  simp only [getCustomerMetafield, h]

/-- The REST fallback depends on the customer id only through prefix stripping. -/
theorem updateCustomerMetafieldREST_congr {V : Type} (env : Env V) (w : World V)
    (wl : List WEntry) (c1 c2 : String) (h : cleanOf c1 = cleanOf c2) :
    updateCustomerMetafieldREST env w c1 wl = updateCustomerMetafieldREST env w c2 wl := by
  simp only [updateCustomerMetafieldREST, h]

/-- The write helper depends on the customer id only through normalization
(GraphQL path) and prefix stripping (REST path). -/
theorem updateCustomerMetafield_congr {V : Type} (env : Env V) (w : World V)
    (wl : List WEntry) (c1 c2 : String) (hn : normCid c1 = normCid c2)
    (hc : cleanOf c1 = cleanOf c2) :
    updateCustomerMetafield env w c1 wl = updateCustomerMetafield env w c2 wl := by
  simp only [updateCustomerMetafield, hn,
    updateCustomerMetafieldREST_congr env w wl c1 c2 hc]

theorem strStartsWith_qualified (id : String) :
    strStartsWith ("gid://shopify/Customer/" ++ id) "gid://" = true := by
  show leadEq "gid://".data ("gid://shopify/Customer/" ++ id).data = true
  rw [String.data_append]
  have h : ("gid://shopify/Customer/" : String).data =
      "gid://".data ++ "shopify/Customer/".data := by decide
  rw [h, List.append_assoc]
  exact leadEq_append_self "gid://".data ("shopify/Customer/".data ++ id.data)

theorem normCid_qualified (id : String) :
    normCid ("gid://shopify/Customer/" ++ id) = "gid://shopify/Customer/" ++ id := by
  rw [normCid, if_pos (strStartsWith_qualified id)]

theorem cleanOf_qualified (id : String) : cleanOf ("gid://shopify/Customer/" ++ id) = id := by
  rw [cleanOf, strReplaceFirst_append_self, String.empty_append]

/-- JS `result.nodes.map(...)` throws as soon as one node is `null`. -/
theorem allSome_of_mem_none {α : Type} (l : List (Option α)) (h : none ∈ l) :
    allSome l = none := by
  induction l with
  | nil => simp at h
  | cons a as ih =>
    cases a with
    | none => rfl
    | some x =>
      have h' : none ∈ as := by
        rcases List.mem_cons.mp h with h | h
        · exact absurd h.symm (Option.some_ne_none x)
        · exact h
      rw [allSome, ih h']
      rfl

theorem handleRequest_add {V : Type} (gate : GateEnv) (env : Env V) (w : World V) (req : Req)
    (h : validateStoreRequest gate req = true) :
    handleRequest gate env w Route.add req = addHandler env w true req.customerId req.productId := by
  simp [handleRequest, h]

theorem handleRequest_get {V : Type} (gate : GateEnv) (env : Env V) (w : World V) (req : Req)
    (h : validateStoreRequest gate req = true) :
    handleRequest gate env w Route.get req = getHandler env w true req.customerId := by
  simp [handleRequest, h]

theorem handleRequest_remove {V : Type} (gate : GateEnv) (env : Env V) (w : World V) (req : Req)
    (h : validateStoreRequest gate req = true) :
    handleRequest gate env w Route.remove req =
      removeHandler env w req.customerId req.productId := by
  simp [handleRequest, h]

/-- Full equation for a successful `add`: authorized, fields present, read
yields `wl0` with no duplicate, primary write succeeds. -/
theorem add_success_eq {V : Type} (env : Env V) (gate : GateEnv) (w : World V) (req : Req)
    (cid pid : String) (wl0 : List WEntry) (tr0 : List (RemoteCall V))
    (hauth : validateStoreRequest gate req = true)
    (hcid : req.customerId = some cid) (hpid : req.productId = some pid)
    (hc : cid ≠ "") (hp : pid ≠ "")
    (hwrite : env.gqlWrite = GqlWriteOutcome.ok)
    (hread : getCustomerMetafield env w cid = (Except.ok wl0, tr0))
    (hnone : ∀ p ∈ wl0, ¬ p.id = some pid) :
    handleRequest gate env w Route.add req =
      ⟨201,
       worldSetWish w (canonKey cid) env.newRecId
         (env.stringify (wl0 ++ [mkNewProduct (getProductDetails env [pid]).1.head? env.now])),
       tr0 ++ (getProductDetails env [pid]).2 ++
         [RemoteCall.gqlMetafieldsSet (normCid cid)
           (env.stringify (wl0 ++ [mkNewProduct (getProductDetails env [pid]).1.head? env.now]))],
       some (mkNewProduct (getProductDetails env [pid]).1.head? env.now),
       some (wl0 ++ [mkNewProduct (getProductDetails env [pid]).1.head? env.now]).length,
       none⟩ := by
  rw [handleRequest_add gate env w req hauth, addHandler, hcid, hpid]
  have hfa : (isFalsy (some cid) || isFalsy (some pid)) = false := by
    simp [isFalsy, hc, hp]
  rw [hfa]
  have hfind : wl0.find? (fun p => decide (p.id = some pid)) = none :=
    List.find?_eq_none.mpr (fun x hx => by simp [hnone x hx])
  simp only [Option.getD_some, Bool.false_eq_true, if_false, hread, hfind, Option.isSome_none,
    updateCustomerMetafield_ok env w cid _ hwrite]
  rfl

/-- Full equation for a successful `remove`: authorized, fields present, read
yields `wl0`, the filter drops at least one entry, primary write succeeds. -/
theorem remove_success_eq {V : Type} (env : Env V) (gate : GateEnv) (w : World V) (req : Req)
    (cid pid : String) (wl0 : List WEntry) (tr0 : List (RemoteCall V))
    (hauth : validateStoreRequest gate req = true)
    (hcid : req.customerId = some cid) (hpid : req.productId = some pid)
    (hc : cid ≠ "") (hp : pid ≠ "")
    (hwrite : env.gqlWrite = GqlWriteOutcome.ok)
    (hread : getCustomerMetafield env w cid = (Except.ok wl0, tr0))
    (hlen : (wl0.filter (fun p => !(decide (p.id = some pid)))).length ≠ wl0.length) :
    handleRequest gate env w Route.remove req =
      ⟨200,
       worldSetWish w (canonKey cid) env.newRecId
         (env.stringify (wl0.filter (fun p => !(decide (p.id = some pid))))),
       tr0 ++ [RemoteCall.gqlMetafieldsSet (normCid cid)
         (env.stringify (wl0.filter (fun p => !(decide (p.id = some pid)))))],
       none,
       some (wl0.filter (fun p => !(decide (p.id = some pid)))).length,
       none⟩ := by
  rw [handleRequest_remove gate env w req hauth, removeHandler, hcid, hpid]
  have hfa : (isFalsy (some cid) || isFalsy (some pid)) = false := by
    simp [isFalsy, hc, hp]
  rw [hfa]
  simp only [Option.getD_some, Bool.false_eq_true, if_false, hread, hlen,
    updateCustomerMetafield_ok env w cid _ hwrite]

/-! ### Claims -/

/-- Claim C9: a request that fails the origin-authorization check is answered
403 with an empty remote-call trace and an unchanged store, for every wishlist
route — the gate middleware runs before every handler, so this holds even when
required fields are also missing (403 is returned, never 400). -/
theorem claim_C9 (V : Type) (gate : GateEnv) (env : Env V) (w : World V) (r : Route) (req : Req)
    (h : validateStoreRequest gate req = false) :
    handleRequest gate env w r req = ⟨403, w, [], none, none, none⟩ := by
  simp only [handleRequest, h]
  rfl

theorem claim_C9_witness :
    validateStoreRequest gateA reqBad = false ∧
    reqBad.customerId = none ∧ reqBad.productId = none ∧
    handleRequest gateA cenvA wA Route.add reqBad = ⟨403, wA, [], none, none, none⟩ :=
  ⟨rfl, rfl, rfl, claim_C9 VA gateA cenvA wA Route.add reqBad rfl⟩

/-- Claim C6: a customer id not starting with the qualifier is prefixed with
`gid://shopify/Customer/` and a qualified one is used as-is; the read path
queries and the write path mutates under the normalized id; consequently a
bare id and its qualified form address the same stored wishlist — the read
and the write behave identically on the two forms. -/
theorem claim_C6 :
    (∀ cid : String, strStartsWith cid "gid://" = false →
      normCid cid = "gid://shopify/Customer/" ++ cid) ∧
    (∀ cid : String, strStartsWith cid "gid://" = true → normCid cid = cid) ∧
    (∀ (V : Type) (env : Env V) (w : World V) (cid : String),
      (getCustomerMetafield env w cid).2 = [RemoteCall.gqlCustomerQuery (normCid cid)]) ∧
    (∀ (V : Type) (env : Env V) (w : World V) (cid : String) (wl : List WEntry),
      (updateCustomerMetafield env w cid wl).2.head? =
        some (RemoteCall.gqlMetafieldsSet (normCid cid) (env.stringify wl))) ∧
    (∀ (V : Type) (env : Env V) (w : World V) (id : String) (wl : List WEntry),
      strStartsWith id "gid://" = false →
      strIncludes id "gid://shopify/Customer/" = false →
      getCustomerMetafield env w id =
        getCustomerMetafield env w ("gid://shopify/Customer/" ++ id) ∧
      updateCustomerMetafield env w id wl =
        updateCustomerMetafield env w ("gid://shopify/Customer/" ++ id) wl) := by
  refine ⟨?_, ?_, ?_, ?_, ?_⟩
  · intro cid h
    rw [normCid, if_neg (by simp [h])]
  · intro cid h
    rw [normCid, if_pos h]
  · intro V env w cid
    exact getCustomerMetafield_trace env w cid
  · intro V env w cid wl
    rw [updateCustomerMetafield]
    cases env.gqlWrite with
    | ok => rfl
    | userErrs msgs =>
      rcases hrest : updateCustomerMetafieldREST env w cid wl with ⟨res, tr'⟩
      cases res with
      | ok w' => simp [hrest]
      | error e =>
        rcases hrest2 : updateCustomerMetafieldREST env w cid wl with ⟨res2, tr2⟩
        cases res2 with
        | ok w2 => simp [hrest, hrest2]
        | error e2 => simp [hrest, hrest2]
    | netThrow msg =>
      rcases hrest : updateCustomerMetafieldREST env w cid wl with ⟨res, tr'⟩
      cases res with
      | ok w' => simp [hrest]
      | error e => simp [hrest]
  · intro V env w id wl hstart hincl
    have hn : normCid id = normCid ("gid://shopify/Customer/" ++ id) := by
      rw [normCid_qualified, normCid, if_neg (by simp [hstart])]
    have hc : cleanOf id = cleanOf ("gid://shopify/Customer/" ++ id) := by
      rw [cleanOf_qualified, cleanOf, strReplaceFirst_not_contained id _ _ hincl]
    exact ⟨getCustomerMetafield_congr env w _ _ hn,
      updateCustomerMetafield_congr env w wl _ _ hn hc⟩

theorem claim_C6_witness :
    strStartsWith "1" "gid://" = false ∧
    strIncludes "1" "gid://shopify/Customer/" = false ∧
    getCustomerMetafield cenvA wA "1" =
      getCustomerMetafield cenvA wA ("gid://shopify/Customer/" ++ "1") ∧
    updateCustomerMetafield cenvA wA "1" [] =
      updateCustomerMetafield cenvA wA ("gid://shopify/Customer/" ++ "1") [] ∧
    normCid "1" = "gid://shopify/Customer/" ++ "1" :=
  ⟨by decide, by decide,
   (claim_C6.2.2.2.2 VA cenvA wA "1" [] (by decide) (by decide)).1,
   (claim_C6.2.2.2.2 VA cenvA wA "1" [] (by decide) (by decide)).2,
   claim_C6.1 "1" (by decide)⟩

/-- Claim C3: removing a product id that no entry of the current wishlist
carries yields 404, performs no write (the store is unchanged and the trace
holds no write call), and the stored collection keeps its length and
contents. -/
theorem claim_C3 (V : Type) (env : Env V) (gate : GateEnv) (w : World V) (req : Req)
    (cid pid : String) (wl0 : List WEntry) (tr0 : List (RemoteCall V))
    (hauth : validateStoreRequest gate req = true)
    (hcid : req.customerId = some cid) (hpid : req.productId = some pid)
    (hc : cid ≠ "") (hp : pid ≠ "")
    (hread : getCustomerMetafield env w cid = (Except.ok wl0, tr0))
    (hnone : ∀ p ∈ wl0, ¬ p.id = some pid) :
    (handleRequest gate env w Route.remove req).status = 404 ∧
    (handleRequest gate env w Route.remove req).world = w ∧
    (handleRequest gate env w Route.remove req).trace.all (fun c => !isWriteCall c) = true ∧
    storedWishlist env ((handleRequest gate env w Route.remove req).world) cid =
      storedWishlist env w cid := by
  have htr : tr0 = [RemoteCall.gqlCustomerQuery (normCid cid)] := by
    have := getCustomerMetafield_trace env w cid
    rw [hread] at this
    exact this
  have hfilter : wl0.filter (fun p => !(decide (p.id = some pid))) = wl0 :=
    List.filter_eq_self.mpr (fun a ha => by simp [hnone a ha])
  have hres : handleRequest gate env w Route.remove req = ⟨404, w, tr0, none, none, none⟩ := by
    rw [handleRequest_remove gate env w req hauth, removeHandler, hcid, hpid]
    have hfa : (isFalsy (some cid) || isFalsy (some pid)) = false := by
      simp [isFalsy, hc, hp]
    rw [hfa]
    simp [Option.getD_some, hread, hfilter]
  rw [hres, htr]
  refine ⟨rfl, rfl, by simp [isWriteCall], rfl⟩

theorem claim_C3_witness :
    validateStoreRequest gateA reqB = true ∧
    reqB.customerId = some "1" ∧ reqB.productId = some "7" ∧
    getCustomerMetafield cenvA wA "1" =
      (Except.ok [entryA], [RemoteCall.gqlCustomerQuery (normCid "1")]) ∧
    (∀ p ∈ [entryA], ¬ p.id = some "7") ∧
    (handleRequest gateA cenvA wA Route.remove reqB).status = 404 ∧
    (handleRequest gateA cenvA wA Route.remove reqB).world = wA :=
  ⟨by decide, rfl, rfl, rfl, by decide,
   (claim_C3 VA cenvA gateA wA reqB "1" "7" [entryA] [RemoteCall.gqlCustomerQuery (normCid "1")]
     (by decide) rfl rfl (by decide) (by decide) rfl (by decide)).1,
   (claim_C3 VA cenvA gateA wA reqB "1" "7" [entryA] [RemoteCall.gqlCustomerQuery (normCid "1")]
     (by decide) rfl rfl (by decide) (by decide) rfl (by decide)).2.1⟩

/-- Claim C4: the wishlist read returns an empty collection (not an error)
when the customer record is not found and when the stored metafield value
fails to parse; hence `get` on a customer with no prior wishlist activity
answers 200 with an empty collection and count 0. -/
theorem claim_C4 :
    (∀ (V : Type) (env : Env V) (gate : GateEnv) (w : World V) (req : Req) (cid : String),
      validateStoreRequest gate req = true →
      req.customerId = some cid → cid ≠ "" →
      env.customerFail = none →
      assocFind w.customers (canonKey cid) = none →
      (handleRequest gate env w Route.get req).status = 200 ∧
      (handleRequest gate env w Route.get req).wishlist = some [] ∧
      (handleRequest gate env w Route.get req).count = some 0) ∧
    (∀ (V : Type) (env : Env V) (w : World V) (cid : String) (mfs : List (Mf V)) (mf : Mf V),
      env.customerFail = none →
      worldCustomer w (normCid cid) = some mfs →
      ((mfs.filter isCustomMf).take 10).find? isWishMf = some mf →
      env.parse mf.value = none →
      (getCustomerMetafield env w cid).1 = Except.ok []) := by
  constructor
  · intro V env gate w req cid hauth hcid hc hfail hw
    have hread : getCustomerMetafield env w cid =
        (Except.ok [], [RemoteCall.gqlCustomerQuery (normCid cid)]) := by
      rw [getCustomerMetafield]
      have hwc : worldCustomer w (normCid cid) = assocFind w.customers (canonKey cid) := rfl
      simp only [hfail, hwc, hw]
    have hres : handleRequest gate env w Route.get req =
        ⟨200, w, [RemoteCall.gqlCustomerQuery (normCid cid)], none, some 0, some []⟩ := by
      rw [handleRequest_get gate env w req hauth, getHandler, hcid]
      have hfa : isFalsy (some cid) = false := by simp [isFalsy, hc]
      rw [hfa]
      simp [hread]
    rw [hres]
    exact ⟨rfl, rfl, rfl⟩
  · intro V env w cid mfs mf hfail hw hfind hparse
    rw [getCustomerMetafield]
    simp only [hfail, hw, hfind, hparse]

theorem claim_C4_witness :
    validateStoreRequest gateA reqA = true ∧
    assocFind wNone.customers (canonKey "1") = none ∧
    (handleRequest gateA cenvA wNone Route.get reqA).status = 200 ∧
    (handleRequest gateA cenvA wNone Route.get reqA).wishlist = some [] ∧
    (handleRequest gateA cenvA wNone Route.get reqA).count = some 0 ∧
    worldCustomer wBadVal (normCid "1") = some [⟨5, "custom", "wishlist_products", (none : VA)⟩] ∧
    cenvA.parse (none : VA) = none ∧
    (getCustomerMetafield cenvA wBadVal "1").1 = Except.ok [] :=
  ⟨by decide, rfl,
   (claim_C4.1 VA cenvA gateA wNone reqA "1" (by decide) rfl (by decide) rfl rfl).1,
   (claim_C4.1 VA cenvA gateA wNone reqA "1" (by decide) rfl (by decide) rfl rfl).2.1,
   (claim_C4.1 VA cenvA gateA wNone reqA "1" (by decide) rfl (by decide) rfl rfl).2.2,
   rfl, rfl,
   claim_C4.2 VA cenvA wBadVal "1" [⟨5, "custom", "wishlist_products", (none : VA)⟩]
     ⟨5, "custom", "wishlist_products", (none : VA)⟩ rfl rfl rfl rfl⟩

/-- Claim C1: whenever the primary `metafieldsSet` mutation throws or returns
user errors, the REST fallback runs: it first reads the existing metafields
of the bare customer id, then issues a `PUT` against the found record id when
a metafield with namespace `custom` and key `wishlist_products` exists and a
`POST` otherwise, carrying the same serialized wishlist value as the primary
mutation; if the REST write also fails, the write helper fails. -/
theorem claim_C1 (V : Type) (env : Env V) (w : World V) (cid : String) (wl : List WEntry)
    (hfb : env.gqlWrite ≠ GqlWriteOutcome.ok) :
    (updateCustomerMetafieldREST env w cid wl).2 =
      [RemoteCall.restGetMetafields (cleanOf cid),
       RemoteCall.restWrite (cleanOf cid)
         (if (restFoundWishId env w (cleanOf cid)).isSome then "PUT" else "POST")
         (restFoundWishId env w (cleanOf cid)) (env.stringify wl)] ∧
    RemoteCall.restWrite (cleanOf cid)
        (if (restFoundWishId env w (cleanOf cid)).isSome then "PUT" else "POST")
        (restFoundWishId env w (cleanOf cid)) (env.stringify wl) ∈
      (updateCustomerMetafield env w cid wl).2 ∧
    (env.restWriteOk = false →
      (updateCustomerMetafield env w cid wl).1 = Except.error "REST API Error") := by
  have hrest2 : (updateCustomerMetafieldREST env w cid wl).2 =
      [RemoteCall.restGetMetafields (cleanOf cid),
       RemoteCall.restWrite (cleanOf cid)
         (if (restFoundWishId env w (cleanOf cid)).isSome then "PUT" else "POST")
         (restFoundWishId env w (cleanOf cid)) (env.stringify wl)] := by
    rw [updateCustomerMetafieldREST]
    cases env.restWriteOk <;> simp
  refine ⟨hrest2, ?_⟩
  have hmem : RemoteCall.restWrite (cleanOf cid)
      (if (restFoundWishId env w (cleanOf cid)).isSome then "PUT" else "POST")
      (restFoundWishId env w (cleanOf cid)) (env.stringify wl) ∈
        (updateCustomerMetafieldREST env w cid wl).2 := by
    rw [hrest2]
    simp
  cases hout : env.gqlWrite with
  | ok => exact absurd hout hfb
  | userErrs msgs =>
    rw [updateCustomerMetafield]
    simp only [hout]
    cases hrw : env.restWriteOk with
    | true =>
      have hr : updateCustomerMetafieldREST env w cid wl =
          (Except.ok (worldSetWish w (cleanOf cid)
            ((restFoundWishId env w (cleanOf cid)).getD env.newRecId) (env.stringify wl)),
           (updateCustomerMetafieldREST env w cid wl).2) := by
        rw [updateCustomerMetafieldREST] at hrest2 ⊢
        rw [hrw]
        simp [hrest2]
      rw [hr]
      constructor
      · simp only [List.mem_append]
        right
        exact hrest2 ▸ hmem
      · intro hcontra
        exact absurd hcontra (by simp [hrw])
    | false =>
      have hr : updateCustomerMetafieldREST env w cid wl =
          (Except.error "REST API Error", (updateCustomerMetafieldREST env w cid wl).2) := by
        rw [updateCustomerMetafieldREST] at hrest2 ⊢
        rw [hrw]
        simp [hrest2]
      rw [hr]
      constructor
      · simp only [List.mem_append]
        left
        right
        exact hrest2 ▸ hmem
      · intro _
        rfl
  | netThrow msg =>
    rw [updateCustomerMetafield]
    simp only [hout]
    cases hrw : env.restWriteOk with
    | true =>
      have hr : updateCustomerMetafieldREST env w cid wl =
          (Except.ok (worldSetWish w (cleanOf cid)
            ((restFoundWishId env w (cleanOf cid)).getD env.newRecId) (env.stringify wl)),
           (updateCustomerMetafieldREST env w cid wl).2) := by
        rw [updateCustomerMetafieldREST] at hrest2 ⊢
        rw [hrw]
        simp [hrest2]
      rw [hr]
      constructor
      · simp only [List.mem_append]
        right
        exact hrest2 ▸ hmem
      · intro hcontra
        exact absurd hcontra (by simp [hrw])
    | false =>
      have hr : updateCustomerMetafieldREST env w cid wl =
          (Except.error "REST API Error", (updateCustomerMetafieldREST env w cid wl).2) := by
        rw [updateCustomerMetafieldREST] at hrest2 ⊢
        rw [hrw]
        simp [hrest2]
      rw [hr]
      constructor
      · simp only [List.mem_append]
        right
        exact hrest2 ▸ hmem
      · intro _
        rfl

theorem claim_C1_witness :
    cenvB.gqlWrite ≠ GqlWriteOutcome.ok ∧ cenvB.restWriteOk = false ∧
    restFoundWishId cenvB wA (cleanOf "1") = some 5 ∧
    (updateCustomerMetafieldREST cenvB wA "1" []).2 =
      [RemoteCall.restGetMetafields (cleanOf "1"),
       RemoteCall.restWrite (cleanOf "1")
         (if (restFoundWishId cenvB wA (cleanOf "1")).isSome then "PUT" else "POST")
         (restFoundWishId cenvB wA (cleanOf "1")) (cenvB.stringify [])] ∧
    RemoteCall.restWrite (cleanOf "1")
        (if (restFoundWishId cenvB wA (cleanOf "1")).isSome then "PUT" else "POST")
        (restFoundWishId cenvB wA (cleanOf "1")) (cenvB.stringify []) ∈
      (updateCustomerMetafield cenvB wA "1" []).2 ∧
    (updateCustomerMetafield cenvB wA "1" []).1 = Except.error "REST API Error" :=
  ⟨by decide, rfl, rfl,
   (claim_C1 VA cenvB wA "1" [] (by decide)).1,
   (claim_C1 VA cenvB wA "1" [] (by decide)).2.1,
   (claim_C1 VA cenvB wA "1" [] (by decide)).2.2 rfl⟩

/-- Claim C5: when the product-lookup query fails, `add` still succeeds (201)
and the appended entry carries the given id, a null handle, the synthesized
title `Product <id>`, the timestamp and the fixed provenance tag. -/
theorem claim_C5 (V : Type) (env : Env V) (gate : GateEnv) (w : World V) (req : Req)
    (cid pid : String) (wl0 : List WEntry) (tr0 : List (RemoteCall V))
    (hauth : validateStoreRequest gate req = true)
    (hcid : req.customerId = some cid) (hpid : req.productId = some pid)
    (hc : cid ≠ "") (hp : pid ≠ "")
    (hlookup : ∃ msg, env.nodesResult ["gid://shopify/Product/" ++ pid] = Except.error msg)
    (hwrite : env.gqlWrite = GqlWriteOutcome.ok)
    (hread : getCustomerMetafield env w cid = (Except.ok wl0, tr0))
    (hnone : ∀ p ∈ wl0, ¬ p.id = some pid) :
    (handleRequest gate env w Route.add req).status = 201 ∧
    (handleRequest gate env w Route.add req).product =
      some ⟨some pid, none, some ("Product " ++ pid), some env.now, some "shopify-store"⟩ := by
  have hpd : getProductDetails env [pid] =
      ([⟨pid, none, some ("Product " ++ pid)⟩],
       [RemoteCall.gqlNodesQuery ["gid://shopify/Product/" ++ pid]]) := by
    obtain ⟨msg, hmsg⟩ := hlookup
    simp [getProductDetails, hmsg, degradedDetails]
  rw [add_success_eq env gate w req cid pid wl0 tr0 hauth hcid hpid hc hp hwrite hread hnone]
  refine ⟨rfl, ?_⟩
  simp [hpd, mkNewProduct]

theorem claim_C5_witness :
    validateStoreRequest gateA reqA = true ∧
    cenvA.nodesResult ["gid://shopify/Product/" ++ "123"] = Except.error "api down" ∧
    getCustomerMetafield cenvA wEmpty "1" =
      (Except.ok [], [RemoteCall.gqlCustomerQuery (normCid "1")]) ∧
    (handleRequest gateA cenvA wEmpty Route.add reqA).status = 201 ∧
    (handleRequest gateA cenvA wEmpty Route.add reqA).product =
      some ⟨some "123", none, some ("Product " ++ "123"), some cenvA.now,
        some "shopify-store"⟩ :=
  ⟨by decide, rfl, rfl,
   (claim_C5 VA cenvA gateA wEmpty reqA "1" "123" [] [RemoteCall.gqlCustomerQuery (normCid "1")]
     (by decide) rfl rfl (by decide) (by decide) ⟨"api down", rfl⟩ rfl rfl
     (by decide)).1,
   (claim_C5 VA cenvA gateA wEmpty reqA "1" "123" [] [RemoteCall.gqlCustomerQuery (normCid "1")]
     (by decide) rfl rfl (by decide) (by decide) ⟨"api down", rfl⟩ rfl rfl
     (by decide)).2⟩

/-- Claim C10: a successful lookup response containing a null node makes the
node mapping throw inside the helper, which catches it and returns the
degraded entries; and `add` never fails from the enrichment step: with a
successful read and primary write it answers 201 whatever the lookup does. -/
theorem claim_C10 :
    (∀ (V : Type) (env : Env V) (productIds : List String)
      (nodes : List (Option ProductNode)),
      productIds.isEmpty = false →
      env.nodesResult (productIds.map (fun id => "gid://shopify/Product/" ++ id)) =
        Except.ok nodes →
      none ∈ nodes →
      (getProductDetails env productIds).1 = degradedDetails productIds) ∧
    (∀ (V : Type) (env : Env V) (gate : GateEnv) (w : World V) (req : Req)
      (cid pid : String) (wl0 : List WEntry) (tr0 : List (RemoteCall V)),
      validateStoreRequest gate req = true →
      req.customerId = some cid → req.productId = some pid →
      cid ≠ "" → pid ≠ "" →
      env.gqlWrite = GqlWriteOutcome.ok →
      getCustomerMetafield env w cid = (Except.ok wl0, tr0) →
      (∀ p ∈ wl0, ¬ p.id = some pid) →
      (handleRequest gate env w Route.add req).status = 201) := by
  constructor
  · intro V env productIds nodes hne hok hmem
    simp [getProductDetails, hne, hok, allSome_of_mem_none nodes hmem]
  · intro V env gate w req cid pid wl0 tr0 hauth hcid hpid hc hp hwrite hread hnone
    rw [add_success_eq env gate w req cid pid wl0 tr0 hauth hcid hpid hc hp hwrite hread hnone]

theorem claim_C10_witness :
    cenvD.nodesResult (["7"].map (fun id => "gid://shopify/Product/" ++ id)) =
      Except.ok [none] ∧
    (getProductDetails cenvD ["7"]).1 = degradedDetails ["7"] ∧
    getCustomerMetafield cenvD wEmpty "1" =
      (Except.ok [], [RemoteCall.gqlCustomerQuery (normCid "1")]) ∧
    (handleRequest gateA cenvD wEmpty Route.add reqB).status = 201 :=
  ⟨rfl,
   claim_C10.1 VA cenvD ["7"] [none] rfl rfl (by decide),
   rfl,
   claim_C10.2 VA cenvD gateA wEmpty reqB "1" "7" []
     [RemoteCall.gqlCustomerQuery (normCid "1")] (by decide) rfl rfl (by decide) (by decide)
     rfl rfl (by decide)⟩

theorem filter_length_ne {α : Type} (p : α → Bool) (l : List α) (x : α) (hx : x ∈ l)
    (hpx : p x = false) : (l.filter p).length ≠ l.length := by
  induction l with
  | nil => simp at hx
  | cons a as ih =>
    rcases List.mem_cons.mp hx with h | h
    · subst h
      rw [List.filter_cons_of_neg (by simp [hpx])]
      have := List.length_filter_le p as
      simp only [List.length_cons]
      omega
    · by_cases hpa : p a = true
      · rw [List.filter_cons_of_pos hpa]
        simp only [List.length_cons]
        have := ih h
        omega
      · rw [List.filter_cons_of_neg hpa]
        have := List.length_filter_le p as
        simp only [List.length_cons]
        omega

/-- Claim C7 counterexample: customer `1` stores the wishlist entry with bare
product id `123`; addressing the same product by its qualified id
`gid://shopify/Product/123` makes `add` append a second entry (201, not the
409 the claim requires) and makes `remove` miss it (404): the bare and
qualified forms are not treated as the same product. -/
theorem claim_C7_counterexample :
    entryA.id = some "123" ∧
    reqQualified.productId = some ("gid://shopify/Product/" ++ "123") ∧
    getCustomerMetafield cenvA wA "1" =
      (Except.ok [entryA], [RemoteCall.gqlCustomerQuery (normCid "1")]) ∧
    (handleRequest gateA cenvA wA Route.add reqQualified).status = 201 ∧
    (handleRequest gateA cenvA wA Route.remove reqQualified).status = 404 :=
  ⟨rfl, rfl, rfl, rfl, rfl⟩

/-- Claim C7 amended: product ids are compared verbatim, with no
normalization: `add` answers 409 exactly when some stored entry id equals the
given productId as a plain string, `remove` answers 404 exactly when no
stored entry id equals it as a plain string, and the product lookup
unconditionally prefixes `gid://shopify/Product/` to the given id — so the
bare and qualified forms of a product id are treated as different products. -/
theorem claim_C7_amended (V : Type) (env : Env V) (gate : GateEnv) (w : World V) (req : Req)
    (cid pid : String) (wl0 : List WEntry) (tr0 : List (RemoteCall V))
    (hauth : validateStoreRequest gate req = true)
    (hcid : req.customerId = some cid) (hpid : req.productId = some pid)
    (hc : cid ≠ "") (hp : pid ≠ "")
    (hread : getCustomerMetafield env w cid = (Except.ok wl0, tr0)) :
    ((handleRequest gate env w Route.add req).status = 409 ↔ ∃ p ∈ wl0, p.id = some pid) ∧
    ((handleRequest gate env w Route.remove req).status = 404 ↔
      ∀ p ∈ wl0, ¬ p.id = some pid) ∧
    (getProductDetails env [pid]).2 =
      [RemoteCall.gqlNodesQuery ["gid://shopify/Product/" ++ pid]] := by
  have hfa : (isFalsy (some cid) || isFalsy (some pid)) = false := by
    simp [isFalsy, hc, hp]
  refine ⟨?_, ?_, ?_⟩
  · constructor
    · intro hst
      by_contra hdup
      have hnone : ∀ p ∈ wl0, ¬ p.id = some pid := by
        intro p hp2 heq
        exact hdup ⟨p, hp2, heq⟩
      have hfind : wl0.find? (fun p => decide (p.id = some pid)) = none :=
        List.find?_eq_none.mpr (fun x hx => by simp [hnone x hx])
      rw [handleRequest_add gate env w req hauth, addHandler, hcid, hpid, hfa] at hst
      simp only [Option.getD_some, Bool.false_eq_true, if_false, hread, hfind,
        Option.isSome_none] at hst
      rcases hup : updateCustomerMetafield env w cid
          (wl0 ++ [mkNewProduct (getProductDetails env [pid]).1.head? env.now]) with ⟨res, tr'⟩
      rw [hup] at hst
      cases res with
      | ok w' => simp at hst
      | error e => simp at hst
    · intro hdup
      have hfind : (wl0.find? (fun p => decide (p.id = some pid))).isSome = true := by
        rw [List.find?_isSome]
        obtain ⟨p, hp2, heq⟩ := hdup
        exact ⟨p, hp2, by simp [heq]⟩
      rw [handleRequest_add gate env w req hauth, addHandler, hcid, hpid, hfa]
      simp only [Option.getD_some, Bool.false_eq_true, if_false, hread, hfind, if_true]
      rfl
  · constructor
    · intro hst
      by_contra hex
      push_neg at hex
      obtain ⟨p, hp2, heq⟩ := hex
      have hlen : (wl0.filter (fun q => !(decide (q.id = some pid)))).length ≠ wl0.length :=
        filter_length_ne _ wl0 p hp2 (by simp [heq])
      rw [handleRequest_remove gate env w req hauth, removeHandler, hcid, hpid, hfa] at hst
      simp only [Option.getD_some, Bool.false_eq_true, if_false, hread, hlen] at hst
      rcases hup : updateCustomerMetafield env w cid
          (wl0.filter (fun q => !(decide (q.id = some pid)))) with ⟨res, tr'⟩
      rw [hup] at hst
      cases res with
      | ok w' => simp at hst
      | error e => simp at hst
    · intro hnone
      have hfilter : wl0.filter (fun q => !(decide (q.id = some pid))) = wl0 :=
        List.filter_eq_self.mpr (fun a ha => by simp [hnone a ha])
      rw [handleRequest_remove gate env w req hauth, removeHandler, hcid, hpid, hfa]
      simp [hread, hfilter]
  · rcases hnr : env.nodesResult ["gid://shopify/Product/" ++ pid] with msg | nodes
    · simp [getProductDetails, hnr]
    · cases hall : allSome nodes with
      | none => simp [getProductDetails, hnr, hall]
      | some products => simp [getProductDetails, hnr, hall]

theorem claim_C7_amended_witness :
    validateStoreRequest gateA reqA = true ∧
    getCustomerMetafield cenvA wA "1" =
      (Except.ok [entryA], [RemoteCall.gqlCustomerQuery (normCid "1")]) ∧
    ((handleRequest gateA cenvA wA Route.add reqA).status = 409 ↔
      ∃ p ∈ [entryA], p.id = some "123") ∧
    ((handleRequest gateA cenvA wA Route.remove reqA).status = 404 ↔
      ∀ p ∈ [entryA], ¬ p.id = some "123") ∧
    (getProductDetails cenvA ["123"]).2 =
      [RemoteCall.gqlNodesQuery ["gid://shopify/Product/" ++ "123"]] :=
  ⟨by decide, rfl,
   (claim_C7_amended VA cenvA gateA wA reqA "1" "123" [entryA]
     [RemoteCall.gqlCustomerQuery (normCid "1")] (by decide) rfl rfl (by decide) (by decide)
     rfl).1,
   (claim_C7_amended VA cenvA gateA wA reqA "1" "123" [entryA]
     [RemoteCall.gqlCustomerQuery (normCid "1")] (by decide) rfl rfl (by decide) (by decide)
     rfl).2.1,
   (claim_C7_amended VA cenvA gateA wA reqA "1" "123" [entryA]
     [RemoteCall.gqlCustomerQuery (normCid "1")] (by decide) rfl rfl (by decide) (by decide)
     rfl).2.2⟩

/-- Equation for `add` hitting the duplicate check: 409 and no write. -/
theorem add_dup_eq {V : Type} (env : Env V) (gate : GateEnv) (w : World V) (req : Req)
    (cid pid : String) (wl0 : List WEntry) (tr0 : List (RemoteCall V))
    (hauth : validateStoreRequest gate req = true)
    (hcid : req.customerId = some cid) (hpid : req.productId = some pid)
    (hc : cid ≠ "") (hp : pid ≠ "")
    (hread : getCustomerMetafield env w cid = (Except.ok wl0, tr0))
    (hfind : (wl0.find? (fun p => decide (p.id = some pid))).isSome = true) :
    handleRequest gate env w Route.add req = ⟨409, w, tr0, none, none, none⟩ := by
  rw [handleRequest_add gate env w req hauth, addHandler, hcid, hpid]
  have hfa : (isFalsy (some cid) || isFalsy (some pid)) = false := by
    simp [isFalsy, hc, hp]
  rw [hfa]
  simp only [Option.getD_some, Bool.false_eq_true, if_false, hread, hfind, if_true]
  rfl

/-- Reading back immediately after a successful primary write returns the
written collection, provided the codec round-trips and the customer had at
most 9 `custom` metafields before the write. -/
theorem read_after_write {V : Type} (env : Env V) (w : World V) (cid : String) (rid : Nat)
    (l : List WEntry)
    (hfail : env.customerFail = none)
    (hrt : ∀ xs, env.parse (env.stringify xs) = some xs)
    (hcount : custCustomCount w (canonKey cid) ≤ 9) :
    getCustomerMetafield env (worldSetWish w (canonKey cid) rid (env.stringify l)) cid =
      (Except.ok l, [RemoteCall.gqlCustomerQuery (normCid cid)]) := by
  have hcount2 : custCustomCount (worldSetWish w (canonKey cid) rid (env.stringify l))
      (canonKey cid) ≤ 10 := by
    have := custCustomCount_worldSetWish w (canonKey cid) rid (env.stringify l)
    omega
  rw [read_eq_stored env _ cid hfail hcount2, stored_after_set, hrt]
  rfl

/-- Claim C2: if the wishlist read at the start of `add` already holds an
entry whose id equals the given productId, `add` answers 409 and performs no
write; hence adding the same pair twice (with a well-behaved lookup and
codec) gives 201 then 409, the stored collection grows by exactly one entry,
and the second call leaves the store untouched. -/
theorem claim_C2 :
    (∀ (V : Type) (env : Env V) (gate : GateEnv) (w : World V) (req : Req)
      (cid pid : String) (wl0 : List WEntry) (tr0 : List (RemoteCall V)),
      validateStoreRequest gate req = true →
      req.customerId = some cid → req.productId = some pid →
      cid ≠ "" → pid ≠ "" →
      getCustomerMetafield env w cid = (Except.ok wl0, tr0) →
      (∃ p ∈ wl0, p.id = some pid) →
      (handleRequest gate env w Route.add req).status = 409 ∧
      (handleRequest gate env w Route.add req).world = w ∧
      (handleRequest gate env w Route.add req).trace.all (fun c => !isWriteCall c) = true) ∧
    (∀ (V : Type) (env : Env V) (gate : GateEnv) (w : World V) (req : Req) (cid pid : String),
      validateStoreRequest gate req = true →
      req.customerId = some cid → req.productId = some pid →
      cid ≠ "" → pid ≠ "" →
      env.customerFail = none →
      env.gqlWrite = GqlWriteOutcome.ok →
      (∀ xs, env.parse (env.stringify xs) = some xs) →
      addedEntryId env pid = some pid →
      custCustomCount w (canonKey cid) ≤ 9 →
      (∀ p ∈ storedWishlist env w cid, ¬ p.id = some pid) →
      (handleRequest gate env w Route.add req).status = 201 ∧
      (handleRequest gate env (handleRequest gate env w Route.add req).world
        Route.add req).status = 409 ∧
      (handleRequest gate env (handleRequest gate env w Route.add req).world
        Route.add req).world = (handleRequest gate env w Route.add req).world ∧
      storedWishlist env (handleRequest gate env w Route.add req).world cid =
        storedWishlist env w cid ++
          [mkNewProduct (getProductDetails env [pid]).1.head? env.now] ∧
      (storedWishlist env (handleRequest gate env w Route.add req).world cid).length =
        (storedWishlist env w cid).length + 1) := by
  constructor
  · intro V env gate w req cid pid wl0 tr0 hauth hcid hpid hc hp hread hdup
    have htr : tr0 = [RemoteCall.gqlCustomerQuery (normCid cid)] := by
      have := getCustomerMetafield_trace env w cid
      rw [hread] at this
      exact this
    have hfind : (wl0.find? (fun p => decide (p.id = some pid))).isSome = true := by
      rw [List.find?_isSome]
      obtain ⟨p, hp2, heq⟩ := hdup
      exact ⟨p, hp2, by simp [heq]⟩
    have hres := add_dup_eq env gate w req cid pid wl0 tr0 hauth hcid hpid hc hp hread hfind
    rw [hres, htr]
    exact ⟨rfl, rfl, by simp [isWriteCall]⟩
  · intro V env gate w req cid pid hauth hcid hpid hc hp hfail hwrite hrt hied hcount hnone
    have hcount10 : custCustomCount w (canonKey cid) ≤ 10 := by omega
    have hread := read_eq_stored env w cid hfail hcount10
    have hr1 := add_success_eq env gate w req cid pid (storedWishlist env w cid)
      [RemoteCall.gqlCustomerQuery (normCid cid)] hauth hcid hpid hc hp hwrite hread hnone
    have hread2 := read_after_write env w cid env.newRecId
      (storedWishlist env w cid ++ [mkNewProduct (getProductDetails env [pid]).1.head? env.now])
      hfail hrt hcount
    have he : (mkNewProduct (getProductDetails env [pid]).1.head? env.now).id = some pid := hied
    have hfind2 : ((storedWishlist env w cid ++
        [mkNewProduct (getProductDetails env [pid]).1.head? env.now]).find?
        (fun p => decide (p.id = some pid))).isSome = true := by
      rw [List.find?_isSome]
      exact ⟨mkNewProduct (getProductDetails env [pid]).1.head? env.now, by simp, by simp [he]⟩
    have hr2 := add_dup_eq env gate
      (worldSetWish w (canonKey cid) env.newRecId (env.stringify (storedWishlist env w cid ++
        [mkNewProduct (getProductDetails env [pid]).1.head? env.now])))
      req cid pid _ _ hauth hcid hpid hc hp hread2 hfind2
    refine ⟨by simp [hr1], ?_, ?_, ?_, ?_⟩
    · simp only [hr1]
      simp only [hr2]
    · simp only [hr1]
      simp only [hr2]
    · simp only [hr1]
      rw [stored_after_set, hrt]
      rfl
    · simp only [hr1]
      rw [stored_after_set, hrt]
      simp

theorem claim_C2_witness :
    validateStoreRequest gateA reqA = true ∧
    getCustomerMetafield cenvA wA "1" =
      (Except.ok [entryA], [RemoteCall.gqlCustomerQuery (normCid "1")]) ∧
    (∃ p ∈ [entryA], p.id = some "123") ∧
    (handleRequest gateA cenvA wA Route.add reqA).status = 409 ∧
    (handleRequest gateA cenvA wA Route.add reqA).world = wA ∧
    addedEntryId cenvA "123" = some "123" ∧
    custCustomCount wEmpty (canonKey "1") ≤ 9 ∧
    (handleRequest gateA cenvA wEmpty Route.add reqA).status = 201 ∧
    (handleRequest gateA cenvA (handleRequest gateA cenvA wEmpty Route.add reqA).world
      Route.add reqA).status = 409 ∧
    (handleRequest gateA cenvA (handleRequest gateA cenvA wEmpty Route.add reqA).world
      Route.add reqA).world = (handleRequest gateA cenvA wEmpty Route.add reqA).world ∧
    (storedWishlist cenvA (handleRequest gateA cenvA wEmpty Route.add reqA).world "1").length =
      (storedWishlist cenvA wEmpty "1").length + 1 := by
  have h1 := claim_C2.1 VA cenvA gateA wA reqA "1" "123" [entryA]
    [RemoteCall.gqlCustomerQuery (normCid "1")] (by decide) rfl rfl (by decide) (by decide)
    rfl ⟨entryA, by simp, rfl⟩
  have h2 := claim_C2.2 VA cenvA gateA wEmpty reqA "1" "123" (by decide) rfl rfl
    (by decide) (by decide) rfl rfl (fun xs => rfl) rfl (by decide) (by decide)
  exact ⟨by decide, rfl, ⟨entryA, by simp, rfl⟩, h1.1, h1.2.1, rfl, by decide,
    h2.1, h2.2.1, h2.2.2.1, h2.2.2.2.2⟩

/-- Claim C8: adding a product that is not yet present and then removing it
restores the stored collection to its pre-add contents (and hence length):
the add appends one entry, the remove filters exactly that entry out and
writes the original collection back. -/
theorem claim_C8 (V : Type) (env : Env V) (gate : GateEnv) (w : World V) (req : Req)
    (cid pid : String)
    (hauth : validateStoreRequest gate req = true)
    (hcid : req.customerId = some cid) (hpid : req.productId = some pid)
    (hc : cid ≠ "") (hp : pid ≠ "")
    (hfail : env.customerFail = none)
    (hwrite : env.gqlWrite = GqlWriteOutcome.ok)
    (hrt : ∀ xs, env.parse (env.stringify xs) = some xs)
    (hied : addedEntryId env pid = some pid)
    (hcount : custCustomCount w (canonKey cid) ≤ 9)
    (hnone : ∀ p ∈ storedWishlist env w cid, ¬ p.id = some pid) :
    (handleRequest gate env w Route.add req).status = 201 ∧
    (handleRequest gate env (handleRequest gate env w Route.add req).world
      Route.remove req).status = 200 ∧
    storedWishlist env (handleRequest gate env (handleRequest gate env w Route.add req).world
      Route.remove req).world cid = storedWishlist env w cid := by
  have hcount10 : custCustomCount w (canonKey cid) ≤ 10 := by omega
  have hread := read_eq_stored env w cid hfail hcount10
  have hr1 := add_success_eq env gate w req cid pid (storedWishlist env w cid)
    [RemoteCall.gqlCustomerQuery (normCid cid)] hauth hcid hpid hc hp hwrite hread hnone
  have hread2 := read_after_write env w cid env.newRecId
    (storedWishlist env w cid ++ [mkNewProduct (getProductDetails env [pid]).1.head? env.now])
    hfail hrt hcount
  have he : (mkNewProduct (getProductDetails env [pid]).1.head? env.now).id = some pid := hied
  have hfilter : (storedWishlist env w cid ++
      [mkNewProduct (getProductDetails env [pid]).1.head? env.now]).filter
      (fun p => !(decide (p.id = some pid))) = storedWishlist env w cid := by
    rw [List.filter_append]
    have h1 : (storedWishlist env w cid).filter (fun p => !(decide (p.id = some pid))) =
        storedWishlist env w cid :=
      List.filter_eq_self.mpr (fun a ha => by simp [hnone a ha])
    have h2 : ([mkNewProduct (getProductDetails env [pid]).1.head? env.now]).filter
        (fun p => !(decide (p.id = some pid))) = [] := by
      simp [List.filter, he]
    rw [h1, h2, List.append_nil]
  have hlen : ((storedWishlist env w cid ++
      [mkNewProduct (getProductDetails env [pid]).1.head? env.now]).filter
      (fun p => !(decide (p.id = some pid)))).length ≠
      (storedWishlist env w cid ++
        [mkNewProduct (getProductDetails env [pid]).1.head? env.now]).length := by
    rw [hfilter]
    simp
  have hr2 := remove_success_eq env gate
    (worldSetWish w (canonKey cid) env.newRecId (env.stringify (storedWishlist env w cid ++
      [mkNewProduct (getProductDetails env [pid]).1.head? env.now])))
    req cid pid _ _ hauth hcid hpid hc hp hwrite hread2 hlen
  refine ⟨by simp [hr1], ?_, ?_⟩
  · simp only [hr1]
    simp only [hr2]
  · simp only [hr1]
    simp only [hr2]
    rw [stored_after_set, hrt, hfilter]
    rfl

theorem claim_C8_witness :
    validateStoreRequest gateA reqA = true ∧
    cenvA.customerFail = none ∧ cenvA.gqlWrite = GqlWriteOutcome.ok ∧
    addedEntryId cenvA "123" = some "123" ∧
    custCustomCount wEmpty (canonKey "1") ≤ 9 ∧
    (∀ p ∈ storedWishlist cenvA wEmpty "1", ¬ p.id = some "123") ∧
    (handleRequest gateA cenvA wEmpty Route.add reqA).status = 201 ∧
    (handleRequest gateA cenvA (handleRequest gateA cenvA wEmpty Route.add reqA).world
      Route.remove reqA).status = 200 ∧
    storedWishlist cenvA
      (handleRequest gateA cenvA (handleRequest gateA cenvA wEmpty Route.add reqA).world
        Route.remove reqA).world "1" = storedWishlist cenvA wEmpty "1" := by
  have h := claim_C8 VA cenvA gateA wEmpty reqA "1" "123" (by decide) rfl rfl (by decide)
    (by decide) rfl rfl (fun xs => rfl) rfl (by decide) (by decide)
  exact ⟨by decide, rfl, rfl, rfl, by decide, by decide, h.1, h.2.1, h.2.2⟩

end WishlistApp

